import Mathlib

/-!
# Verification of the DuroTrace performance-testing scripts

Shallow embedding of the four k6 load-test scripts of this repository:
* `module1` — `k6-module1.js` (serial codes & master data),
* `lt`      — the paginated `k6-script.js` (serial codes with paging),
* `module2` — `k6-module2.js` (SmartPrint),
* `module3` — `module3_smartscan_loadtest.js` (smart scan capture).

HTTP responses are modelled as a status code (a natural number) together
with a body string.  JSON request payloads are modelled structurally by
the inductive type `JVal`; the scripts call `JSON.stringify` on object
literals, and the embedding keeps the object literal itself.  The
JavaScript template-literal rendering of a non-negative number is
modelled by `decRepr` (decimal digits, most significant first).

Each script's `default` entry point is embedded as a function from a
response oracle `env : Nat → Response` (the response the server gives to
the n-th request of the iteration) to the straight-line trace it
produces: the list of issued requests, the diagnostic log lines, and the
outcomes of all `check` predicates.
-/

/-- A JSON value as built by the scripts' object literals. -/
inductive JVal where
  | str (s : String)
  | num (n : Int)
  | arr (xs : List JVal)
  | obj (fields : List (String × JVal))

/-- Field lookup in a JSON object (first binding wins, as in a JS object
literal without duplicate keys). -/
def JVal.getField (j : JVal) (k : String) : Option JVal :=
  match j with
  | .obj fs => fs.lookup k
  | _ => none

/-- An HTTP response as observed by the k6 check predicates: status code
and body. -/
structure Response where
  status : Nat
  body : String

/-- HTTP methods used by the scripts. -/
inductive Method where
  | get
  | post
deriving DecidableEq

/-- The character of a single decimal digit. -/
def digitChar (d : Nat) : Char := Char.ofNat (48 + d)

/-- Little-endian decimal digits of `n`, computed with explicit fuel so
that the definition is structurally recursive (and hence evaluates in
the kernel).  With fuel at least `n` this agrees with `Nat.digits 10 n`. -/
def decDigitsAux : Nat → Nat → List Nat
  | 0, _ => []
  | f + 1, n => if n = 0 then [] else n % 10 :: decDigitsAux f (n / 10)

/-- Little-endian decimal digits of `n`. -/
def decDigits (n : Nat) : List Nat := decDigitsAux n n

/-- Decimal rendering of a natural number, mirroring how a JavaScript
template literal renders a non-negative integer. -/
def decRepr (n : Nat) : String :=
  if n = 0 then "0" else String.mk ((decDigits n).reverse.map digitChar)

/-- Base URL shared by all four scripts. -/
def BASE_URL : String := "https://dev-durotrace-api.azurewebsites.net"

/-! ## Payload templates -/

/-- `numericPart` of `generateOrderPayload` in
`module3_smartscan_loadtest.js`: `__VU * 10000 + __ITER`. -/
def numericPart (vu iter : Nat) : Nat := vu * 10000 + iter

/-- `uniqueOrderNumber` of `generateOrderPayload`:
the fixed digits `123456789` followed by `numericPart`. -/
def uniqueOrderNumber (vu iter : Nat) : String :=
  "123456789" ++ decRepr (numericPart vu iter)

/-- The `serial_number` built by `generateMrpReprintPayload`:
`P00302H4QhG6M1b00E-${__VU}-${__ITER}`. -/
def serialNumber (vu iter : Nat) : String :=
  "P00302H4QhG6M1b00E-" ++ decRepr vu ++ "-" ++ decRepr iter

/-- `generateOrderPayload` of `module3_smartscan_loadtest.js`, as the
JSON object passed to `JSON.stringify`. -/
def generateOrderPayload (vu iter : Nat) : JVal :=
  .obj [("order", .arr [
    .obj [
      ("transactiontype", .str "PURCHASE_ORDER"),
      ("ordernumber", .str (uniqueOrderNumber vu iter)),
      ("orderdate", .str "18/08/2025"),
      ("ordertime", .str "12:16:22"),
      ("plantcode", .str "P003"),
      ("prodorderstatus", .str ""),
      ("storagelocation", .str "RM03"),
      ("vendorCode", .str "200128    "),
      ("vendorName", .str "GLOBAL TEXTILES ALLIANCE PVT LTD"),
      ("items", .arr [
        .obj [
          ("itemnumber", .str "10"),
          ("materialcode", .str "CB88SHFLIBLENDGJ03651C001025250GSMG"),
          ("materialdescription", .str "CB88SHFLI BLEND GJ03651-C001025 250GSM"),
          ("orderedquantity", .num 1000),
          ("confirmedgrqty", .num 1000),
          ("storagelocation", .str "RM03"),
          ("uom", .str "M"),
          ("ordernumber", .str (uniqueOrderNumber vu iter)),
          ("lineorderstatus", .str "C"),
          ("content", .str ""),
          ("category", .str ""),
          ("model", .str ""),
          ("productcode", .str ""),
          ("dimension", .str ""),
          ("netqty", .num 1),
          ("monthyear", .str ""),
          ("mrp", .num 0),
          ("eannumber", .str ""),
          ("mfgplantadd", .str ""),
          ("customercare", .str ""),
          ("l1code", .str "99"),
          ("l1text", .str "To be Created"),
          ("l2code", .str "9999"),
          ("l2text", .str "To be Created"),
          ("l3code", .str "999999"),
          ("l3text", .str "To be Created"),
          ("l4code", .str "99999999"),
          ("l4text", .str "To be Created"),
          ("l5code", .str "999999999999"),
          ("l5text", .str "To be Created"),
          ("l6code", .str "99999999999999999"),
          ("l6text", .str "To be Created"),
          ("remarks", .str ""),
          ("attr1", .str "0.000 "),
          ("attr2", .str "0.000 "),
          ("attr3", .str "0.000 "),
          ("attr4", .str ""),
          ("attr5", .str ""),
          ("type", .num 0)
        ]
      ])
    ]
  ])]

/-- `generateMrpReprintPayload` of `module3_smartscan_loadtest.js`. -/
def generateMrpReprintPayload (vu iter : Nat) : JVal :=
  .obj [
    ("po_details_code", .str "a6dd5d05-318f-4bca-833d-48d01aea97a3"),
    ("serial_number", .str (serialNumber vu iter))
  ]

/-- The serial-code `generate` payload of `k6-module1.js`. -/
def module1_generatePayload : JVal :=
  .obj [
    ("product_category_code", .num 1),
    ("plant_code", .str "P001"),
    ("procurement_type_code", .num 1),
    ("no_of_code", .num 2),
    ("user_code", .str "3fa85f64-5717-4562-b3fc-2c963f66afa6")
  ]

/-- The serial-code `generate` payload of the paginated `k6-script.js`. -/
def lt_generatePayload : JVal :=
  .obj [
    ("product_category_code", .num 1),
    ("plant_code", .str "P001"),
    ("procurement_type_code", .num 1),
    ("no_of_code", .num 2),
    ("user_code", .str "3fa85f64-5717-4562-b3fc-2c963f66afa6")
  ]

/-- The SmartPrint payload of `k6-module2.js`. -/
def module2_smartPrintPayload : JVal :=
  .obj [
    ("vendor_type", .str "Vendor"),
    ("vendor_code", .str "3fa85f64-5717-4562-b3fc-2c963f66afa4"),
    ("file_format", .str "PDF"),
    ("delivery_method", .str "FileDownload"),
    ("no_of_code", .num 3),
    ("plant_code", .str "P001"),
    ("plant_name", .str "PDN Factory"),
    ("user_code", .str "3fa85f64-5717-4562-b3fc-2c963f66afa6")
  ]

/-! ## Checks

A k6 `check(res, {...})` call is a map from check names to boolean
predicates over the response.  `method` records whether the response
being checked came from a GET or a POST request. -/

/-- One `check` call: the method of the request whose response it
inspects, and its named predicates in source order. -/
structure Check where
  method : Method
  preds : List (String × (Response → Bool))

/-- A check passes when all of its predicates hold (k6 records each
predicate separately; the conjunction is what "the response passes the
check" means). -/
def checkPasses (c : Check) (r : Response) : Bool :=
  c.preds.all (fun p => p.2 r)

/-- Outcome of each named predicate of a check on a response. -/
def runCheck (c : Check) (r : Response) : List (String × Bool) :=
  c.preds.map (fun p => (p.1, p.2 r))

/-- The first predicate listed in a check.  In every check of every
script the status-code predicate is listed first. -/
def Check.statusTest (c : Check) (r : Response) : Bool :=
  (c.preds.headD ("", fun _ => false)).2 r

/-! ### Checks of `k6-module1.js` -/

def module1_getDetailsCheck : Check :=
  ⟨.get, [
    ("GET details status is 200", fun r => r.status == 200),
    ("GET details has non-empty body", fun r => decide (0 < r.body.length))]⟩

def module1_postGenerateCheck : Check :=
  ⟨.post, [
    ("POST generate status is 201", fun r => r.status == 201),
    ("POST generate has non-empty body", fun r => decide (0 < r.body.length))]⟩

def module1_getHeadersCheck : Check :=
  ⟨.get, [
    ("GET headers status is 200", fun r => r.status == 200),
    ("GET headers has non-empty body", fun r => decide (0 < r.body.length))]⟩

def module1_getPlantsCheck : Check :=
  ⟨.get, [
    ("GET plants data status is 200", fun r => r.status == 200),
    ("GET plants data has non-empty body", fun r => decide (0 < r.body.length))]⟩

def module1_getCategoriesCheck : Check :=
  ⟨.get, [
    ("GET product categories status is 200", fun r => r.status == 200),
    ("GET product categories has non-empty body", fun r => decide (0 < r.body.length))]⟩

def module1_getProcurementCheck : Check :=
  ⟨.get, [
    ("GET procurement types status is 200", fun r => r.status == 200),
    ("GET procurement types has non-empty body", fun r => decide (0 < r.body.length))]⟩

def module1_checks : List Check :=
  [module1_getDetailsCheck, module1_postGenerateCheck, module1_getHeadersCheck,
   module1_getPlantsCheck, module1_getCategoriesCheck, module1_getProcurementCheck]

/-! ### Checks of the paginated `k6-script.js` -/

def lt_paginatedCheck : Check :=
  ⟨.get, [
    ("Paginated GET status is 200", fun r => r.status == 200),
    ("Paginated GET has non-empty body", fun r => decide (0 < r.body.length))]⟩

def lt_getHeadersCheck : Check :=
  ⟨.get, [
    ("GET headers status is 200", fun r => r.status == 200),
    ("GET headers has non-empty body", fun r => decide (0 < r.body.length))]⟩

def lt_postGenerateCheck : Check :=
  ⟨.post, [
    ("POST generate status is 201", fun r => r.status == 201),
    ("POST generate has non-empty body", fun r => decide (0 < r.body.length))]⟩

def lt_checks : List Check :=
  [lt_paginatedCheck, lt_getHeadersCheck, lt_postGenerateCheck]

/-! ### Checks of `k6-module2.js` -/

def module2_postSmartPrintCheck : Check :=
  ⟨.post, [
    ("POST SmartPrint status is 201", fun r => r.status == 201),
    ("POST SmartPrint has non-empty body", fun r => decide (0 < r.body.length))]⟩

def module2_getHeadersCheck : Check :=
  ⟨.get, [
    ("GET smart print headers status is 200", fun r => r.status == 200),
    ("GET smart print headers has non-empty body", fun r => decide (0 < r.body.length))]⟩

def module2_getDetailsCheck : Check :=
  ⟨.get, [
    ("GET smart print details status is 200", fun r => r.status == 200),
    ("GET smart print details has non-empty body", fun r => decide (0 < r.body.length))]⟩

def module2_checks : List Check :=
  [module2_postSmartPrintCheck, module2_getHeadersCheck, module2_getDetailsCheck]

/-! ### Checks of `module3_smartscan_loadtest.js` -/

def module3_generateCheck : Check :=
  ⟨.post, [
    ("Generate: status is 200/201", fun r => r.status == 200 || r.status == 201)]⟩

def module3_mrpCheck : Check :=
  ⟨.post, [
    ("MRP Reprint: status is 200/201", fun r => r.status == 200 || r.status == 201)]⟩

def module3_getHeadersCheck : Check :=
  ⟨.get, [
    ("GET PO Headers status is 200", fun r => r.status == 200),
    ("GET PO Headers has non-empty body", fun r => decide (0 < r.body.length))]⟩

def module3_getDetailsCheck : Check :=
  ⟨.get, [
    ("GET PO Details status is 200", fun r => r.status == 200),
    ("GET PO Details has non-empty body", fun r => decide (0 < r.body.length))]⟩

def module3_checks : List Check :=
  [module3_generateCheck, module3_mrpCheck, module3_getHeadersCheck,
   module3_getDetailsCheck]

/-- Every check of every script, in script order. -/
def allChecks : List Check :=
  module1_checks ++ lt_checks ++ module2_checks ++ module3_checks

/-! ## Iteration traces -/

/-- An HTTP request as issued by a script: method, full URL, and the
JSON payload for POSTs. -/
structure Request where
  method : Method
  url : String
  body : Option JVal

/-- What one execution of a script's `default` function produces: the
requests it issues in order, the `console.log` lines it emits, and the
outcome of every check predicate. -/
structure RunResult where
  requests : List Request
  logs : List String
  checks : List (String × Bool)

/-- The endpoint of a URL: everything before the query string. -/
def endpointOf (u : String) : String :=
  String.mk (u.data.takeWhile (fun c => c != '?'))

/-- One iteration of `k6-module1.js`: six requests, each response
checked; no logging. -/
def module1_run (env : Nat → Response) : RunResult :=
  { requests := [
      ⟨.get, BASE_URL ++ "/api/serialcode/get-serial-code-details-data", none⟩,
      ⟨.post, BASE_URL ++ "/api/serialcode/generate", some module1_generatePayload⟩,
      ⟨.get, BASE_URL ++ "/api/serialcode/get-serial-code-headers-data", none⟩,
      ⟨.get, BASE_URL ++ "/api/master/get-plants-data", none⟩,
      ⟨.get, BASE_URL ++ "/api/master/get-product-categories-data", none⟩,
      ⟨.get, BASE_URL ++ "/api/master/get-procurement-types-data", none⟩],
    logs := [],
    checks :=
      runCheck module1_getDetailsCheck (env 0) ++
      runCheck module1_postGenerateCheck (env 1) ++
      runCheck module1_getHeadersCheck (env 2) ++
      runCheck module1_getPlantsCheck (env 3) ++
      runCheck module1_getCategoriesCheck (env 4) ++
      runCheck module1_getProcurementCheck (env 5) }

/-- The constant `pageSize` of the paginated script. -/
def lt_pageSize : Nat := 50

/-- The page number of the paginated script:
`Math.floor(Math.random() * 100) + 1`, where `rnd` models the value
returned by `Math.random()` (a rational in `[0, 1)`). -/
def pageOf (rnd : ℚ) : ℤ := ⌊rnd * 100⌋ + 1

/-- The paginated URL `...?page=${page}&pageSize=${pageSize}`. -/
def paginatedUrl (rnd : ℚ) : String :=
  BASE_URL ++ "/api/serialcode/get-serial-codes-data?page=" ++
    decRepr (pageOf rnd).toNat ++ "&pageSize=" ++ decRepr lt_pageSize

/-- One iteration of the paginated `k6-script.js`: three requests, each
response checked; no logging. -/
def lt_run (rnd : ℚ) (env : Nat → Response) : RunResult :=
  { requests := [
      ⟨.get, paginatedUrl rnd, none⟩,
      ⟨.get, BASE_URL ++ "/api/serialcode/get-serial-code-headers-data", none⟩,
      ⟨.post, BASE_URL ++ "/api/serialcode/generate", some lt_generatePayload⟩],
    logs := [],
    checks :=
      runCheck lt_paginatedCheck (env 0) ++
      runCheck lt_getHeadersCheck (env 1) ++
      runCheck lt_postGenerateCheck (env 2) }

/-- One iteration of `k6-module2.js`: three requests, each response
checked; no logging. -/
def module2_run (env : Nat → Response) : RunResult :=
  { requests := [
      ⟨.post, BASE_URL ++ "/api/SmartPrint", some module2_smartPrintPayload⟩,
      ⟨.get, BASE_URL ++ "/api/smartprint/get-smart-print-headers-data", none⟩,
      ⟨.get, BASE_URL ++ "/api/smartprint/get-smart-print-details-data", none⟩],
    logs := [],
    checks :=
      runCheck module2_postSmartPrintCheck (env 0) ++
      runCheck module2_getHeadersCheck (env 1) ++
      runCheck module2_getDetailsCheck (env 2) }

/-- The diagnostic line logged by the smart-scan script when the
`generate` response has status at least 400:
`[GENERATE FAIL] Status: ${status}, Body: ${body}`. -/
def genFailLog (r : Response) : String :=
  "[GENERATE FAIL] Status: " ++ decRepr r.status ++ ", Body: " ++ r.body

/-- One iteration of `module3_smartscan_loadtest.js`: four requests,
a diagnostic log when the first response has status at least 400, and
each response checked. -/
def module3_run (vu iter : Nat) (env : Nat → Response) : RunResult :=
  { requests := [
      ⟨.post, BASE_URL ++ "/api/smartscancapture/generate",
        some (generateOrderPayload vu iter)⟩,
      ⟨.post, BASE_URL ++ "/api/smartscancapture/mrp-reprint",
        some (generateMrpReprintPayload vu iter)⟩,
      ⟨.get, BASE_URL ++ "/api/smartscancapture/get-po-headers-data", none⟩,
      ⟨.get, BASE_URL ++ "/api/smartscancapture/get-po-details-data", none⟩],
    logs := if 400 ≤ (env 0).status then [genFailLog (env 0)] else [],
    checks :=
      runCheck module3_generateCheck (env 0) ++
      runCheck module3_mrpCheck (env 1) ++
      runCheck module3_getHeadersCheck (env 2) ++
      runCheck module3_getDetailsCheck (env 3) }

/-! ## Properties of the decimal rendering -/

theorem decDigitsAux_eq : ∀ f n : Nat, n ≤ f → decDigitsAux f n = Nat.digits 10 n := by
  intro f
  induction f with
  | zero =>
    intro n hn
    interval_cases n
    simp [decDigitsAux]
  | succ f ih =>
    intro n hn
    by_cases h0 : n = 0
    · simp [decDigitsAux, h0]
    · have hdiv : n / 10 ≤ f := by
        have : n / 10 < n := Nat.div_lt_self (Nat.pos_of_ne_zero h0) (by norm_num)
        omega
      rw [Nat.digits_def' (b := 10) (by norm_num) (Nat.pos_of_ne_zero h0)]
      simp [decDigitsAux, h0, ih _ hdiv]

theorem decDigits_eq (n : Nat) : decDigits n = Nat.digits 10 n :=
  decDigitsAux_eq n n le_rfl

theorem decDigits_mem_lt (n : Nat) : ∀ d ∈ decDigits n, d < 10 := by
  intro d hd
  rw [decDigits_eq] at hd
  exact Nat.digits_lt_base (by norm_num) hd

theorem digitChar_inj : ∀ d < 10, ∀ e < 10, digitChar d = digitChar e → d = e := by
  decide

theorem digitChar_props : ∀ d < 10, digitChar d ≠ '-' ∧ (digitChar d != '?') = true := by
  decide

theorem map_digitChar_inj :
    ∀ a b : List Nat, (∀ x ∈ a, x < 10) → (∀ x ∈ b, x < 10) →
      a.map digitChar = b.map digitChar → a = b := by
  intro a
  induction a with
  | nil =>
    intro b _ _ h
    cases b with
    | nil => rfl
    | cons y ys => simp at h
  | cons x xs ih =>
    intro b ha hb h
    cases b with
    | nil => simp at h
    | cons y ys =>
      simp only [List.map_cons, List.cons.injEq] at h
      have hx : x = y :=
        digitChar_inj x (ha x (by simp)) y (hb y (by simp)) h.1
      have ht : xs = ys :=
        ih ys (fun z hz => ha z (by simp [hz])) (fun z hz => hb z (by simp [hz])) h.2
      rw [hx, ht]

theorem string_data_inj {s t : String} (h : s.data = t.data) : s = t := by
  cases s
  cases t
  simp_all

theorem decRepr_inj {n m : Nat} (h : decRepr n = decRepr m) : n = m := by
  have hd : (decRepr n).data = (decRepr m).data := by rw [h]
  by_cases hn : n = 0 <;> by_cases hm : m = 0
  · rw [hn, hm]
  · exfalso
    simp only [decRepr, hn, hm, if_pos, if_neg, if_true] at hd
    rcases hrev : (decDigits m).reverse with _ | ⟨d, l⟩
    · rw [hrev] at hd
      simp at hd
    · rw [hrev] at hd
      simp only [List.map_cons] at hd
      have hdm : d ∈ decDigits m := by
        have : d ∈ (decDigits m).reverse := by rw [hrev]; simp
        simpa using this
      have hd10 : d < 10 := decDigits_mem_lt m d hdm
      have hchar : digitChar d = '0' := by
        have := congrArg (fun l => l.headD 'x') hd
        simpa using this.symm
      have hd0 : d = 0 := digitChar_inj d hd10 0 (by norm_num) (by rw [hchar]; rfl)
      have hlen := congrArg List.length hd
      simp at hlen
      have hl : l = [] := by
        cases l with
        | nil => rfl
        | cons c cs => simp at hlen
      have hdig : Nat.digits 10 m = [0] := by
        rw [← decDigits_eq]
        have : (decDigits m).reverse = [d] := by rw [hrev, hl]
        have h2 : decDigits m = [d] := by
          have := congrArg List.reverse this
          simpa using this
        rw [h2, hd0]
      have : m = Nat.ofDigits 10 [0] := by
        rw [← hdig, Nat.ofDigits_digits]
      simp [Nat.ofDigits] at this
      exact hm this
  · exfalso
    simp only [decRepr, hn, hm, if_pos, if_neg, if_true] at hd
    rcases hrev : (decDigits n).reverse with _ | ⟨d, l⟩
    · rw [hrev] at hd
      simp at hd
    · rw [hrev] at hd
      simp only [List.map_cons] at hd
      have hdm : d ∈ decDigits n := by
        have : d ∈ (decDigits n).reverse := by rw [hrev]; simp
        simpa using this
      have hd10 : d < 10 := decDigits_mem_lt n d hdm
      have hchar : digitChar d = '0' := by
        have := congrArg (fun l => l.headD 'x') hd
        simpa using this
      have hd0 : d = 0 := digitChar_inj d hd10 0 (by norm_num) (by rw [hchar]; rfl)
      have hlen := congrArg List.length hd
      simp at hlen
      have hl : l = [] := by
        cases l with
        | nil => rfl
        | cons c cs => simp at hlen
      have hdig : Nat.digits 10 n = [0] := by
        rw [← decDigits_eq]
        have : (decDigits n).reverse = [d] := by rw [hrev, hl]
        have h2 : decDigits n = [d] := by
          have := congrArg List.reverse this
          simpa using this
        rw [h2, hd0]
      have : n = Nat.ofDigits 10 [0] := by
        rw [← hdig, Nat.ofDigits_digits]
      simp [Nat.ofDigits] at this
      exact hn this
  · simp only [decRepr, hn, hm, if_neg] at hd
    have hmap : ((decDigits n).reverse.map digitChar) = ((decDigits m).reverse.map digitChar) := by
      simpa using hd
    have hrev : (decDigits n).reverse = (decDigits m).reverse :=
      map_digitChar_inj _ _
        (fun x hx => decDigits_mem_lt n x (by simpa using hx))
        (fun x hx => decDigits_mem_lt m x (by simpa using hx)) hmap
    have hdig : decDigits n = decDigits m := by
      have := congrArg List.reverse hrev
      simpa using this
    rw [decDigits_eq, decDigits_eq] at hdig
    exact Nat.digits_inj_iff.mp hdig

theorem decRepr_no_dash (n : Nat) : ∀ c ∈ (decRepr n).data, c ≠ '-' := by
  intro c hc
  by_cases hn : n = 0
  · simp only [decRepr, hn, if_pos] at hc
    have : c = '0' := by simpa using hc
    rw [this]
    decide
  · simp only [decRepr, hn, if_neg, if_false] at hc
    rcases List.mem_map.mp (by simpa using hc) with ⟨d, hd, hdc⟩
    have hd10 : d < 10 := decDigits_mem_lt n d (by simpa using hd)
    rw [← hdc]
    exact (digitChar_props d hd10).1

theorem append_dash_inj :
    ∀ (a b a' b' : List Char),
      (∀ c ∈ a, c ≠ '-') → (∀ c ∈ a', c ≠ '-') →
      a ++ '-' :: b = a' ++ '-' :: b' → a = a' ∧ b = b' := by
  intro a
  induction a with
  | nil =>
    intro b a' b' _ ha' h
    cases a' with
    | nil => simpa using h
    | cons c t =>
      exfalso
      simp only [List.nil_append, List.cons_append, List.cons.injEq] at h
      exact ha' c (by simp) h.1.symm
  | cons c t ih =>
    intro b a' b' ha ha' h
    cases a' with
    | nil =>
      exfalso
      simp only [List.cons_append, List.nil_append, List.cons.injEq] at h
      exact ha c (by simp) h.1
    | cons c' t' =>
      simp only [List.cons_append, List.cons.injEq] at h
      have ht := ih b t' b'
        (fun x hx => ha x (by simp [hx])) (fun x hx => ha' x (by simp [hx])) h.2
      exact ⟨by rw [h.1, ht.1], ht.2⟩

theorem serialNumber_inj {vu iter vu' iter' : Nat}
    (h : serialNumber vu iter = serialNumber vu' iter') :
    vu = vu' ∧ iter = iter' := by
  have hd := congrArg String.data h
  have hdash : ("-" : String).data = ['-'] := rfl
  simp only [serialNumber, String.data_append, hdash, List.append_assoc,
    List.singleton_append] at hd
  have hP := List.append_cancel_left hd
  have hs := append_dash_inj _ _ _ _ (decRepr_no_dash vu) (decRepr_no_dash vu') hP
  exact ⟨decRepr_inj (string_data_inj hs.1), decRepr_inj (string_data_inj hs.2)⟩

theorem uniqueOrderNumber_inj {vu iter vu' iter' : Nat}
    (hi : iter < 10000) (hi' : iter' < 10000)
    (h : uniqueOrderNumber vu iter = uniqueOrderNumber vu' iter') :
    vu = vu' ∧ iter = iter' := by
  have hd := congrArg String.data h
  simp only [uniqueOrderNumber, String.data_append] at hd
  have hc := List.append_cancel_left hd
  have hnum : numericPart vu iter = numericPart vu' iter' :=
    decRepr_inj (string_data_inj hc)
  simp only [numericPart] at hnum
  exact ⟨by omega, by omega⟩

theorem endpointOf_paginatedUrl (rnd : ℚ) :
    endpointOf (paginatedUrl rnd) =
      BASE_URL ++ "/api/serialcode/get-serial-codes-data" := by
  have hlit : BASE_URL ++ "/api/serialcode/get-serial-codes-data?page=" =
      "https://dev-durotrace-api.azurewebsites.net/api/serialcode/get-serial-codes-data?page=" := by
    decide
  simp only [endpointOf, paginatedUrl]
  rw [hlit]
  simp only [String.data_append, List.append_assoc]
  rw [List.takeWhile_append, if_neg (by decide)]
  decide

/-! ## The claims -/

/-- The checks that do carry a non-empty-body predicate: all checks of
`k6-module1.js`, the paginated `k6-script.js` and `k6-module2.js`, and
the two GET checks of `module3_smartscan_loadtest.js`.  The two POST
checks of the smart-scan script are the only checks without one. -/
def bodyCheckedChecks : List Check :=
  module1_checks ++ lt_checks ++ module2_checks ++
    [module3_getHeadersCheck, module3_getDetailsCheck]

/-- C1 (counterexample): the claim "every check includes a non-empty-body
predicate" is false: the smart-scan `Generate` POST check is a check of
the scripts, and a response with status 200 and empty body passes it. -/
theorem claim1_counterexample :
    module3_generateCheck ∈ allChecks ∧
      (Response.mk 200 "").body.length = 0 ∧
      checkPasses module3_generateCheck ⟨200, ""⟩ = true := by
  refine ⟨?_, rfl, rfl⟩
  simp [allChecks, module1_checks, lt_checks, module2_checks, module3_checks]

/-- C1 (amended): every check of the three source files except the two
POST checks of the smart-scan script includes a non-empty-body
predicate: a response whose body has length 0 fails the check,
regardless of its status code. -/
theorem claim1_nonempty_body (c : Check) (hc : c ∈ bodyCheckedChecks)
    (r : Response) (hb : r.body.length = 0) : checkPasses c r = false := by
  have hblen : decide (0 < r.body.length) = false := by simp [hb]
  fin_cases hc <;>
    simp [checkPasses, module1_getDetailsCheck, module1_postGenerateCheck,
      module1_getHeadersCheck, module1_getPlantsCheck, module1_getCategoriesCheck,
      module1_getProcurementCheck, lt_paginatedCheck, lt_getHeadersCheck,
      lt_postGenerateCheck, module2_postSmartPrintCheck, module2_getHeadersCheck,
      module2_getDetailsCheck, module3_getHeadersCheck, module3_getDetailsCheck,
      hblen]

/-- C1 witness: a concrete empty-body response fails a concrete check. -/
theorem claim1_witness : checkPasses module1_getDetailsCheck ⟨200, ""⟩ = false :=
  claim1_nonempty_body module1_getDetailsCheck
    (by simp [bodyCheckedChecks, module1_checks]) ⟨200, ""⟩ rfl

/-- C2 (counterexample): identifier uniqueness fails over all pairs of
non-negative integers: the distinct pairs `(1, 10000)` and `(2, 0)`
produce the same `numericPart` `20000`, hence the same `ordernumber` —
indeed the same order payload. -/
theorem claim2_counterexample :
    generateOrderPayload 1 10000 = generateOrderPayload 2 0 ∧
      ((1, 10000) : Nat × Nat) ≠ (2, 0) :=
  ⟨rfl, by decide⟩

/-- C2 (amended): the `serial_number` strings of
`generateMrpReprintPayload` are distinct for every two distinct
(VU, ITER) pairs; the `ordernumber` strings of `generateOrderPayload`
are distinct provided both iteration indices are below 10000 (VU
collides with 10000 iterations: `VU*10000 + ITER` is only injective on
`ITER < 10000`). -/
theorem claim2_unique_identifiers (vu iter vu' iter' : Nat)
    (hne : (vu, iter) ≠ (vu', iter')) :
    (iter < 10000 → iter' < 10000 →
      generateOrderPayload vu iter ≠ generateOrderPayload vu' iter' ∧
      uniqueOrderNumber vu iter ≠ uniqueOrderNumber vu' iter') ∧
    generateMrpReprintPayload vu iter ≠ generateMrpReprintPayload vu' iter' ∧
    serialNumber vu iter ≠ serialNumber vu' iter' := by
  have hser : serialNumber vu iter ≠ serialNumber vu' iter' := by
    intro h
    rcases serialNumber_inj h with ⟨rfl, rfl⟩
    exact hne rfl
  refine ⟨?_, ?_, hser⟩
  · intro hi hi'
    have huon : uniqueOrderNumber vu iter ≠ uniqueOrderNumber vu' iter' := by
      intro h
      rcases uniqueOrderNumber_inj hi hi' h with ⟨rfl, rfl⟩
      exact hne rfl
    refine ⟨?_, huon⟩
    intro h
    apply huon
    simpa [generateOrderPayload] using h
  · intro h
    apply hser
    simpa [generateMrpReprintPayload] using h

/-- C2 witness: concrete distinct pairs yield distinct identifiers. -/
theorem claim2_witness :
    ((1, 0) : Nat × Nat) ≠ (2, 0) ∧
      uniqueOrderNumber 1 0 ≠ uniqueOrderNumber 2 0 ∧
      serialNumber 1 0 ≠ serialNumber 2 0 :=
  ⟨by decide,
   ((claim2_unique_identifiers 1 0 2 0 (by decide)).1 (by decide) (by decide)).2,
   (claim2_unique_identifiers 1 0 2 0 (by decide)).2.2⟩

/-- The checks of the three scripts other than the smart-scan one. -/
def nonSmartScanChecks : List Check :=
  module1_checks ++ lt_checks ++ module2_checks

/-- C3: for every check attached to a GET request the status predicate
passes exactly when the status is 200; for every POST check outside the
smart-scan script it passes exactly when the status is 201; for the
smart-scan POST checks it passes exactly when the status is 200 or 201.
(In every check of every script the status predicate is the first
predicate listed.) -/
theorem claim3_status_predicates (c : Check) (r : Response) :
    (c ∈ allChecks → c.method = .get → (c.statusTest r = true ↔ r.status = 200)) ∧
    (c ∈ nonSmartScanChecks → c.method = .post →
      (c.statusTest r = true ↔ r.status = 201)) ∧
    (c ∈ module3_checks → c.method = .post →
      (c.statusTest r = true ↔ (r.status = 200 ∨ r.status = 201))) := by
  refine ⟨?_, ?_, ?_⟩ <;> intro hc hm <;> fin_cases hc <;>
    simp_all [Check.statusTest, module1_getDetailsCheck,
    module1_postGenerateCheck, module1_getHeadersCheck, module1_getPlantsCheck,
    module1_getCategoriesCheck, module1_getProcurementCheck, lt_paginatedCheck,
    lt_getHeadersCheck, lt_postGenerateCheck, module2_postSmartPrintCheck,
    module2_getHeadersCheck, module2_getDetailsCheck, module3_generateCheck,
    module3_mrpCheck, module3_getHeadersCheck, module3_getDetailsCheck]

/-- C3 witness: the theorem applied to concrete checks and responses. -/
theorem claim3_witness :
    module1_getDetailsCheck.statusTest ⟨200, "x"⟩ = true ∧
      lt_postGenerateCheck.statusTest ⟨201, "x"⟩ = true ∧
      module3_generateCheck.statusTest ⟨201, "x"⟩ = true :=
  ⟨((claim3_status_predicates module1_getDetailsCheck ⟨200, "x"⟩).1
      (by simp [allChecks, module1_checks]) rfl).mpr rfl,
   ((claim3_status_predicates lt_postGenerateCheck ⟨201, "x"⟩).2.1
      (by simp [nonSmartScanChecks, lt_checks]) rfl).mpr rfl,
   ((claim3_status_predicates module3_generateCheck ⟨201, "x"⟩).2.2
      (by simp [module3_checks]) rfl).mpr (Or.inr rfl)⟩

/-- C4: both scripts that POST to `/api/serialcode/generate` use the
same body: a JSON object with exactly the keys `product_category_code`,
`plant_code`, `procurement_type_code`, `no_of_code`, `user_code` and the
fixed values `1`, `"P001"`, `1`, `2`,
`"3fa85f64-5717-4562-b3fc-2c963f66afa6"`; and each script's iteration
sends exactly that object as the body of its generate request. -/
theorem claim4_generate_payload (rnd : ℚ) (env : Nat → Response) :
    module1_generatePayload = lt_generatePayload ∧
    (∃ fs, module1_generatePayload = .obj fs ∧
      fs.map Prod.fst = ["product_category_code", "plant_code",
        "procurement_type_code", "no_of_code", "user_code"]) ∧
    module1_generatePayload.getField "product_category_code" = some (.num 1) ∧
    module1_generatePayload.getField "plant_code" = some (.str "P001") ∧
    module1_generatePayload.getField "procurement_type_code" = some (.num 1) ∧
    module1_generatePayload.getField "no_of_code" = some (.num 2) ∧
    module1_generatePayload.getField "user_code" =
      some (.str "3fa85f64-5717-4562-b3fc-2c963f66afa6") ∧
    (module1_run env).requests.get? 1 =
      some ⟨.post, BASE_URL ++ "/api/serialcode/generate",
        some module1_generatePayload⟩ ∧
    (lt_run rnd env).requests.get? 2 =
      some ⟨.post, BASE_URL ++ "/api/serialcode/generate",
        some lt_generatePayload⟩ := by
  exact ⟨rfl, ⟨_, rfl, rfl⟩, rfl, rfl, rfl, rfl, rfl, rfl, rfl⟩

/-- C5: each script's iteration issues a fixed sequence of requests,
independent of every response (the request list does not change when the
response oracle changes), with each endpoint hit exactly once and in the
same order — so nothing is conditionally re-issued. -/
theorem claim5_fixed_sequence (vu iter : Nat) (rnd : ℚ) (env env' : Nat → Response) :
    ((module1_run env).requests = (module1_run env').requests ∧
      (module1_run env).requests.map (fun q => endpointOf q.url) =
        [BASE_URL ++ "/api/serialcode/get-serial-code-details-data",
         BASE_URL ++ "/api/serialcode/generate",
         BASE_URL ++ "/api/serialcode/get-serial-code-headers-data",
         BASE_URL ++ "/api/master/get-plants-data",
         BASE_URL ++ "/api/master/get-product-categories-data",
         BASE_URL ++ "/api/master/get-procurement-types-data"] ∧
      ((module1_run env).requests.map (fun q => endpointOf q.url)).Nodup) ∧
    ((lt_run rnd env).requests = (lt_run rnd env').requests ∧
      (lt_run rnd env).requests.map (fun q => endpointOf q.url) =
        [BASE_URL ++ "/api/serialcode/get-serial-codes-data",
         BASE_URL ++ "/api/serialcode/get-serial-code-headers-data",
         BASE_URL ++ "/api/serialcode/generate"] ∧
      ((lt_run rnd env).requests.map (fun q => endpointOf q.url)).Nodup) ∧
    ((module2_run env).requests = (module2_run env').requests ∧
      (module2_run env).requests.map (fun q => endpointOf q.url) =
        [BASE_URL ++ "/api/SmartPrint",
         BASE_URL ++ "/api/smartprint/get-smart-print-headers-data",
         BASE_URL ++ "/api/smartprint/get-smart-print-details-data"] ∧
      ((module2_run env).requests.map (fun q => endpointOf q.url)).Nodup) ∧
    ((module3_run vu iter env).requests = (module3_run vu iter env').requests ∧
      (module3_run vu iter env).requests.map (fun q => endpointOf q.url) =
        [BASE_URL ++ "/api/smartscancapture/generate",
         BASE_URL ++ "/api/smartscancapture/mrp-reprint",
         BASE_URL ++ "/api/smartscancapture/get-po-headers-data",
         BASE_URL ++ "/api/smartscancapture/get-po-details-data"] ∧
      ((module3_run vu iter env).requests.map (fun q => endpointOf q.url)).Nodup) := by
  have h1 : (module1_run env).requests.map (fun q => endpointOf q.url) =
      [BASE_URL ++ "/api/serialcode/get-serial-code-details-data",
       BASE_URL ++ "/api/serialcode/generate",
       BASE_URL ++ "/api/serialcode/get-serial-code-headers-data",
       BASE_URL ++ "/api/master/get-plants-data",
       BASE_URL ++ "/api/master/get-product-categories-data",
       BASE_URL ++ "/api/master/get-procurement-types-data"] := by
    simp only [module1_run, List.map_cons, List.map_nil]
    decide
  have h2 : (lt_run rnd env).requests.map (fun q => endpointOf q.url) =
      [BASE_URL ++ "/api/serialcode/get-serial-codes-data",
       BASE_URL ++ "/api/serialcode/get-serial-code-headers-data",
       BASE_URL ++ "/api/serialcode/generate"] := by
    simp only [lt_run, List.map_cons, List.map_nil, endpointOf_paginatedUrl]
    decide
  have h3 : (module2_run env).requests.map (fun q => endpointOf q.url) =
      [BASE_URL ++ "/api/SmartPrint",
       BASE_URL ++ "/api/smartprint/get-smart-print-headers-data",
       BASE_URL ++ "/api/smartprint/get-smart-print-details-data"] := by
    simp only [module2_run, List.map_cons, List.map_nil]
    decide
  have h4 : (module3_run vu iter env).requests.map (fun q => endpointOf q.url) =
      [BASE_URL ++ "/api/smartscancapture/generate",
       BASE_URL ++ "/api/smartscancapture/mrp-reprint",
       BASE_URL ++ "/api/smartscancapture/get-po-headers-data",
       BASE_URL ++ "/api/smartscancapture/get-po-details-data"] := by
    simp only [module3_run, List.map_cons, List.map_nil]
    decide
  exact ⟨⟨rfl, h1, by rw [h1]; decide⟩, ⟨rfl, h2, by rw [h2]; decide⟩,
    ⟨rfl, h3, by rw [h3]; decide⟩, ⟨rfl, h4, by rw [h4]; decide⟩⟩

/-- C6: only the smart-scan script logs, exactly when the response to
`POST /api/smartscancapture/generate` has status at least 400; the log
line reports that response's status and body; and neither the requests
issued nor the check outcomes depend on the logging. -/
theorem claim6_diagnostic_log (vu iter : Nat) (rnd : ℚ) (env env' : Nat → Response) :
    ((module3_run vu iter env).logs ≠ [] ↔ 400 ≤ (env 0).status) ∧
    (module3_run vu iter env).logs =
      (if 400 ≤ (env 0).status then [genFailLog (env 0)] else []) ∧
    genFailLog (env 0) =
      "[GENERATE FAIL] Status: " ++ decRepr (env 0).status ++ ", Body: " ++
        (env 0).body ∧
    (module1_run env).logs = [] ∧ (lt_run rnd env).logs = [] ∧
    (module2_run env).logs = [] ∧
    (module3_run vu iter env).requests = (module3_run vu iter env').requests ∧
    (module3_run vu iter env).checks =
      runCheck module3_generateCheck (env 0) ++ runCheck module3_mrpCheck (env 1) ++
      runCheck module3_getHeadersCheck (env 2) ++
      runCheck module3_getDetailsCheck (env 3) := by
  refine ⟨?_, rfl, rfl, rfl, rfl, rfl, rfl, rfl⟩
  by_cases h : 400 ≤ (env 0).status <;> simp [module3_run, h]

/-- C7: every check predicate of every script depends only on the
response's status code and body length: two responses agreeing on both
get the same verdict from every predicate. -/
theorem claim7_status_body_only (c : Check) (hc : c ∈ allChecks)
    (p : String × (Response → Bool)) (hp : p ∈ c.preds) (r r' : Response)
    (hs : r.status = r'.status) (hb : r.body.length = r'.body.length) :
    p.2 r = p.2 r' := by
  fin_cases hc <;> fin_cases hp <;> simp [hs, hb]

/-- C7 witness: a concrete predicate on two responses that agree on
status and body length but have different bodies. -/
theorem claim7_witness :
    (("GET details status is 200",
        fun r : Response => r.status == 200) : String × (Response → Bool)).2
        ⟨200, "ab"⟩ =
      (("GET details status is 200",
        fun r : Response => r.status == 200) : String × (Response → Bool)).2
        ⟨200, "cd"⟩ :=
  claim7_status_body_only module1_getDetailsCheck
    (by simp [allChecks, module1_checks])
    ("GET details status is 200", fun r : Response => r.status == 200)
    (List.Mem.head _) ⟨200, "ab"⟩ ⟨200, "cd"⟩ rfl rfl

/-- C8: for any random value in `[0, 1)` the paginated request uses the
page number `⌊rnd * 100⌋ + 1`, which lies between 1 and 100, and the
constant pageSize 50; and the first request of the iteration carries
both in its query string. -/
theorem claim8_page_range (rnd : ℚ) (env : Nat → Response)
    (h0 : 0 ≤ rnd) (h1 : rnd < 1) :
    pageOf rnd = ⌊rnd * 100⌋ + 1 ∧ 1 ≤ pageOf rnd ∧ pageOf rnd ≤ 100 ∧
      lt_pageSize = 50 ∧
      (lt_run rnd env).requests.head? = some ⟨.get,
        BASE_URL ++ "/api/serialcode/get-serial-codes-data?page=" ++
          decRepr (pageOf rnd).toNat ++ "&pageSize=" ++ decRepr lt_pageSize,
        none⟩ := by
  refine ⟨rfl, ?_, ?_, rfl, rfl⟩
  · have hf : (0 : ℤ) ≤ ⌊rnd * 100⌋ :=
      Int.floor_nonneg.mpr (mul_nonneg h0 (by norm_num))
    simp only [pageOf]
    omega
  · have hf : ⌊rnd * 100⌋ < 100 := by
      rw [Int.floor_lt]
      push_cast
      nlinarith
    simp only [pageOf]
    omega

/-- C8 witness: the theorem instantiated at the random value 1/2. -/
theorem claim8_witness :
    pageOf (1/2) = ⌊(1/2 : ℚ) * 100⌋ + 1 ∧ 1 ≤ pageOf (1/2) ∧
      pageOf (1/2) ≤ 100 ∧ lt_pageSize = 50 ∧
      (lt_run (1/2) (fun _ => ⟨200, "ok"⟩)).requests.head? = some ⟨.get,
        BASE_URL ++ "/api/serialcode/get-serial-codes-data?page=" ++
          decRepr (pageOf (1/2)).toNat ++ "&pageSize=" ++ decRepr lt_pageSize,
        none⟩ :=
  claim8_page_range (1/2) (fun _ => ⟨200, "ok"⟩) (by norm_num) (by norm_num)

/-- The single order record inside `generateOrderPayload`'s `order`
array, when that array has exactly one element. -/
def orderRec (vu iter : Nat) : Option JVal :=
  match (generateOrderPayload vu iter).getField "order" with
  | some (.arr [o]) => some o
  | _ => none

/-- The single item inside the order record's `items` array, when that
array has exactly one element. -/
def itemRec (vu iter : Nat) : Option JVal :=
  match (orderRec vu iter).bind (fun o => o.getField "items") with
  | some (.arr [i]) => some i
  | _ => none

/-- C9: the order payload has exactly one order record with exactly one
item; order-level and item-level `ordernumber` agree (both equal to
`uniqueOrderNumber`); and every other field of both records (apart from
the order record's `items` field, whose single element is the item
record itself) is a constant independent of VU and ITER. -/
theorem claim9_order_payload_shape (vu iter vu' iter' : Nat) :
    (orderRec vu iter).isSome = true ∧
    (itemRec vu iter).isSome = true ∧
    (orderRec vu iter).bind (fun o => o.getField "ordernumber") =
      some (.str (uniqueOrderNumber vu iter)) ∧
    (itemRec vu iter).bind (fun i => i.getField "ordernumber") =
      some (.str (uniqueOrderNumber vu iter)) ∧
    (∀ k : String, k ≠ "ordernumber" → k ≠ "items" →
      (orderRec vu iter).bind (fun o => o.getField k) =
        (orderRec vu' iter').bind (fun o => o.getField k)) ∧
    (∀ k : String, k ≠ "ordernumber" →
      (itemRec vu iter).bind (fun i => i.getField k) =
        (itemRec vu' iter').bind (fun i => i.getField k)) := by
  refine ⟨rfl, rfl, rfl, rfl, ?_, ?_⟩
  · intro k hk hki
    have hko : (k == "ordernumber") = false := by simpa using hk
    have hkI : (k == "items") = false := by simpa using hki
    simp [orderRec, generateOrderPayload, JVal.getField, List.lookup, hko, hkI]
  · intro k hk
    have hko : (k == "ordernumber") = false := by simpa using hk
    simp [itemRec, orderRec, generateOrderPayload, JVal.getField, List.lookup, hko]

/-- C9 witness: a field other than `ordernumber` agrees across two
concrete (VU, ITER) pairs. -/
theorem claim9_witness :
    (orderRec 1 2).bind (fun o => o.getField "plantcode") =
      (orderRec 3 4).bind (fun o => o.getField "plantcode") :=
  (claim9_order_payload_shape 1 2 3 4).2.2.2.2.1 "plantcode" (by decide) (by decide)

/-- C10: the mrp-reprint payload keeps `po_details_code` at the fixed
constant; `serial_number` is the only field that varies with
(VU, ITER). -/
theorem claim10_mrp_payload_frame (vu iter vu' iter' : Nat) :
    (generateMrpReprintPayload vu iter).getField "po_details_code" =
      some (.str "a6dd5d05-318f-4bca-833d-48d01aea97a3") ∧
    (generateMrpReprintPayload vu iter).getField "serial_number" =
      some (.str (serialNumber vu iter)) ∧
    ∀ k : String, k ≠ "serial_number" →
      (generateMrpReprintPayload vu iter).getField k =
        (generateMrpReprintPayload vu' iter').getField k := by
  refine ⟨rfl, rfl, ?_⟩
  intro k hk
  have hks : (k == "serial_number") = false := by simpa using hk
  simp [generateMrpReprintPayload, JVal.getField, List.lookup, hks]

/-- C10 witness: the constant field agrees across two concrete pairs. -/
theorem claim10_witness :
    (generateMrpReprintPayload 1 2).getField "po_details_code" =
      (generateMrpReprintPayload 3 4).getField "po_details_code" :=
  (claim10_mrp_payload_frame 1 2 3 4).2.2 "po_details_code" (by decide)
